import Mathlib

/-!
# EcuCamera native bridge: `app/src/main/cpp/ecu-bridge.cpp`

The translation unit defines four JNI entry points.  Each one emits one record
through `LOGI` and returns what `env->NewStringUTF` gives for a string literal.
The unit has no global or static variable, so the only state an invocation can
touch belongs to its two collaborators:

* the Java runtime behind `JNIEnv*` (state type `J`), and
* the Android log behind `__android_log_print` (state type `L`).

Both collaborators are arbitrary state transformers, each over its own state:
a log call cannot change what the runtime answers.  The calls the bridge makes
are recorded, in program order, in `World.trace`.

When a native method returns, the runtime throws in the managed caller whatever
exception is pending; `returnToManaged` is that step.  The Rust functions that
lines 10-14 declare are defined outside this file; what is said about them is
modelled from the specification and marked so.
-/

namespace EcuBridge

/-- Priorities of `android/log.h` (`android_LogPriority`), in header order. -/
inductive android_LogPriority where
  | ANDROID_LOG_UNKNOWN
  | ANDROID_LOG_DEFAULT
  | ANDROID_LOG_VERBOSE
  | ANDROID_LOG_DEBUG
  | ANDROID_LOG_INFO
  | ANDROID_LOG_WARN
  | ANDROID_LOG_ERROR
  | ANDROID_LOG_FATAL
  | ANDROID_LOG_SILENT
  deriving DecidableEq, Repr

open android_LogPriority

/-- A `jstring` is `NULL` (`none`) or a reference to a `java.lang.String`,
identified here with its contents. -/
abbrev jstring := Option String

/-- A `jclass` is a reference the bridge never inspects. -/
abbrev jclass := Nat

/-- Line 5: `#define LOG_TAG "EcuBridge"`. -/
def LOG_TAG : String := "EcuBridge"

/-- A call the bridge makes to one of its collaborators. -/
inductive Call where
  | android_log_print (prio : android_LogPriority) (tag : String) (fmt : String)
  | NewStringUTF (bytes : String)
  deriving DecidableEq, Repr

/-- The part of `JNIEnv` the bridge uses: `NewStringUTF`, which answers with a
`jstring` and may change the runtime's state. -/
structure JNIEnv (J : Type) where
  NewStringUTF : J → String → jstring × J

/-- The logging collaborator: `__android_log_print(prio, tag, fmt)` answers with
an `int` and may change the log's state. -/
structure Logger (L : Type) where
  android_log_print : L → android_LogPriority → String → String → Int × L

/-- Everything outside the bridge: the runtime's state, the log's state and the
calls made so far. -/
structure World (J L : Type) where
  jvm : J
  log : L
  trace : List Call

/-- Line 6: `#define LOGI(...) __android_log_print(ANDROID_LOG_INFO, LOG_TAG, __VA_ARGS__)`. -/
def LOGI {J L : Type} (logger : Logger L) (fmt : String) (w : World J L) : Int × World J L :=
  let r := logger.android_log_print w.log ANDROID_LOG_INFO LOG_TAG fmt
  (r.1, { w with log := r.2, trace := w.trace ++ [Call.android_log_print ANDROID_LOG_INFO LOG_TAG fmt] })

/-- Line 7: `#define LOGE(...) __android_log_print(ANDROID_LOG_ERROR, LOG_TAG, __VA_ARGS__)`. -/
def LOGE {J L : Type} (logger : Logger L) (fmt : String) (w : World J L) : Int × World J L :=
  let r := logger.android_log_print w.log ANDROID_LOG_ERROR LOG_TAG fmt
  (r.1, { w with log := r.2, trace := w.trace ++ [Call.android_log_print ANDROID_LOG_ERROR LOG_TAG fmt] })

/-- The call `env->NewStringUTF(bytes)`. -/
def JNIEnv.callNewStringUTF {J L : Type} (env : JNIEnv J) (bytes : String) (w : World J L) :
    jstring × World J L :=
  let r := env.NewStringUTF w.jvm bytes
  (r.1, { w with jvm := r.2, trace := w.trace ++ [Call.NewStringUTF bytes] })

/-- Lines 16-23. The value of `LOGI` is discarded; `clazz` is unused. -/
def Java_id_xms_ecucamera_bridge_NativeBridge_stringFromRust {J L : Type}
    (logger : Logger L) (env : JNIEnv J) (_clazz : jclass) (w : World J L) :
    jstring × World J L :=
  let w1 := (LOGI logger "C++ Bridge: Calling Rust stringFromRust function" w).2
  env.callNewStringUTF "C++ Bridge: Rust function should override this" w1

/-- Lines 25-31. -/
def Java_id_xms_ecucamera_bridge_NativeBridge_getEngineStatus {J L : Type}
    (logger : Logger L) (env : JNIEnv J) (_clazz : jclass) (w : World J L) :
    jstring × World J L :=
  let w1 := (LOGI logger "C++ Bridge: Calling Rust getEngineStatus function" w).2
  env.callNewStringUTF "C++ Bridge: Rust function should override this" w1

/-- Lines 33-39. -/
def Java_id_xms_ecucamera_bridge_NativeBridge_initializeEngine {J L : Type}
    (logger : Logger L) (env : JNIEnv J) (_clazz : jclass) (w : World J L) :
    jstring × World J L :=
  let w1 := (LOGI logger "C++ Bridge: Calling Rust initializeEngine function" w).2
  env.callNewStringUTF "C++ Bridge: Rust function should override this" w1

/-- Lines 42-46. -/
def Java_id_xms_ecucamera_bridge_NativeBridge_getCppBridgeInfo {J L : Type}
    (logger : Logger L) (env : JNIEnv J) (_clazz : jclass) (w : World J L) :
    jstring × World J L :=
  let w1 := (LOGI logger "C++ Bridge: Providing bridge information" w).2
  env.callNewStringUTF "C++ Bridge: Active and ready for ECU communication" w1

/-- The four symbols the translation unit exports. -/
inductive EntryPoint where
  | stringFromRust
  | getEngineStatus
  | initializeEngine
  | getCppBridgeInfo
  deriving DecidableEq, Repr

/-- The managed runtime's dispatch of a native method to its exported symbol. -/
def invoke {J L : Type} (logger : Logger L) (env : JNIEnv J) (e : EntryPoint) (clazz : jclass)
    (w : World J L) : jstring × World J L :=
  match e with
  | .stringFromRust => Java_id_xms_ecucamera_bridge_NativeBridge_stringFromRust logger env clazz w
  | .getEngineStatus => Java_id_xms_ecucamera_bridge_NativeBridge_getEngineStatus logger env clazz w
  | .initializeEngine => Java_id_xms_ecucamera_bridge_NativeBridge_initializeEngine logger env clazz w
  | .getCppBridgeInfo => Java_id_xms_ecucamera_bridge_NativeBridge_getCppBridgeInfo logger env clazz w

/-- A finite sequence of invocations, each starting in the world the previous
one left; the results are listed in call order. -/
def runSeq {J L : Type} (logger : Logger L) (env : JNIEnv J) :
    List (EntryPoint × jclass) → World J L → List jstring × World J L
  | [], w => ([], w)
  | c :: cs, w =>
    let r := invoke logger env c.1 c.2 w
    let rs := runSeq logger env cs r.2
    (r.1 :: rs.1, rs.2)

/-! ## Vocabulary for the statements -/

/-- The literal each entry point hands to `NewStringUTF` (lines 22, 30, 38, 45). -/
def requestedString : EntryPoint → String
  | .stringFromRust => "C++ Bridge: Rust function should override this"
  | .getEngineStatus => "C++ Bridge: Rust function should override this"
  | .initializeEngine => "C++ Bridge: Rust function should override this"
  | .getCppBridgeInfo => "C++ Bridge: Active and ready for ECU communication"

/-- The literal each entry point hands to `LOGI` (lines 18, 27, 35, 44). -/
def logMessage : EntryPoint → String
  | .stringFromRust => "C++ Bridge: Calling Rust stringFromRust function"
  | .getEngineStatus => "C++ Bridge: Calling Rust getEngineStatus function"
  | .initializeEngine => "C++ Bridge: Calling Rust initializeEngine function"
  | .getCppBridgeInfo => "C++ Bridge: Providing bridge information"

/-- The stubs that lines 16-39 define for the symbols declared at lines 10-14. -/
def EntryPoint.isStub : EntryPoint → Bool
  | .getCppBridgeInfo => false
  | _ => true

/-- The arguments of the `NewStringUTF` calls of a trace, in order. -/
def requestedStrings : List Call → List String
  | [] => []
  | Call.NewStringUTF bytes :: cs => bytes :: requestedStrings cs
  | Call.android_log_print _ _ _ :: cs => requestedStrings cs

/-- The records handed to `__android_log_print` in a trace, in order. -/
def logRecords : List Call → List (android_LogPriority × String × String)
  | [] => []
  | Call.android_log_print prio tag fmt :: cs => (prio, tag, fmt) :: logRecords cs
  | Call.NewStringUTF _ :: cs => logRecords cs

/-- The JNI contract of `NewStringUTF`: the answer is `NULL` or a string with
the requested contents. -/
def JNIEnv.Conforming {J : Type} (env : JNIEnv J) : Prop :=
  ∀ (j : J) (s : String), (env.NewStringUTF j s).1 = none ∨ (env.NewStringUTF j s).1 = some s

/-! ## Return to the managed caller -/

/-- A Java exception as the managed caller sees it: its class and its message. -/
structure Throwable where
  cls : String
  message : String
  deriving DecidableEq, Repr

/-- What the managed caller of a native method observes once the method has
returned. -/
inductive ManagedOutcome where
  | value (v : jstring)
  | thrown (ex : Throwable)
  deriving DecidableEq, Repr

/-- Return from a native method: an exception pending in the runtime is thrown
in the caller and the returned reference is dropped; with none pending the
caller receives the returned reference.  The argument `pending` reads the
pending exception off the runtime's state (JNI `ExceptionOccurred`). -/
def returnToManaged {J L : Type} (pending : J → Option Throwable) (r : jstring × World J L) :
    ManagedOutcome :=
  match pending r.2.jvm with
  | some ex => ManagedOutcome.thrown ex
  | none => ManagedOutcome.value r.1

/-- A managed call of an entry point: the native function runs, then control
returns to the caller. -/
def callFromManaged {J L : Type} (logger : Logger L) (env : JNIEnv J)
    (pending : J → Option Throwable) (e : EntryPoint) (clazz : jclass) (w : World J L) :
    ManagedOutcome :=
  returnToManaged pending (invoke logger env e clazz w)

/-- The JNI contract of `NewStringUTF` on failure: it answers `NULL` only with
an exception (`OutOfMemoryError`) left pending. -/
def JNIEnv.RaisesOnNull {J : Type} (env : JNIEnv J) (pending : J → Option Throwable) : Prop :=
  ∀ (j : J) (s : String), (env.NewStringUTF j s).1 = none →
    ∃ ex : Throwable, pending (env.NewStringUTF j s).2 = some ex

/-! ## The bound implementation -/

/-- A runtime whose string construction always succeeds. -/
def okEnv : JNIEnv Unit := ⟨fun j s => (some s, j)⟩

/-- A runtime that can construct as many strings as its state says, then fails. -/
def budgetEnv : JNIEnv Nat :=
  ⟨fun n s => match n with
    | 0 => (none, 0)
    | k + 1 => (some s, k)⟩

/-- A runtime with a heap for as many strings as the first component of its
state says; a construction beyond that answers `NULL` and leaves an
`OutOfMemoryError` pending in the second component. -/
def heapEnv : JNIEnv (Nat × Option Throwable) :=
  ⟨fun j s => match j.1 with
    | 0 => (none, (0, some ⟨"java.lang.OutOfMemoryError", "Failed to allocate a string"⟩))
    | k + 1 => (some s, (k, j.2))⟩

/-- A log that drops every record and answers `0`. -/
def nullLogger : Logger Unit := ⟨fun l _ _ _ => (0, l)⟩

/-- A log that keeps every message and answers with the number kept. -/
def keepLogger : Logger (List String) :=
  ⟨fun l _ _ fmt => (((l.length : Nat) : Int) + 1, l ++ [fmt])⟩

/-- The world before any call, for collaborators without state. -/
def w0 : World Unit Unit := ⟨(), (), []⟩

/-! ## Shared lemmas -/

/-- Every entry point is one `LOGI` followed by one `NewStringUTF`, whose answer
is returned. -/
theorem invoke_eq {J L : Type} (logger : Logger L) (env : JNIEnv J) (e : EntryPoint)
    (clazz : jclass) (w : World J L) :
    invoke logger env e clazz w =
      ((env.NewStringUTF w.jvm (requestedString e)).1,
        { jvm := (env.NewStringUTF w.jvm (requestedString e)).2
          log := (logger.android_log_print w.log ANDROID_LOG_INFO LOG_TAG (logMessage e)).2
          trace := w.trace ++ [Call.android_log_print ANDROID_LOG_INFO LOG_TAG (logMessage e),
            Call.NewStringUTF (requestedString e)] }) := by
  cases e <;>
    simp [invoke, Java_id_xms_ecucamera_bridge_NativeBridge_stringFromRust,
      Java_id_xms_ecucamera_bridge_NativeBridge_getEngineStatus,
      Java_id_xms_ecucamera_bridge_NativeBridge_initializeEngine,
      Java_id_xms_ecucamera_bridge_NativeBridge_getCppBridgeInfo, LOGI,
      JNIEnv.callNewStringUTF, requestedString, logMessage]

theorem requestedStrings_append (xs ys : List Call) :
    requestedStrings (xs ++ ys) = requestedStrings xs ++ requestedStrings ys := by
  induction xs with
  | nil => rfl
  | cons c cs ih => cases c <;> simp [requestedStrings, ih]

theorem logRecords_append (xs ys : List Call) :
    logRecords (xs ++ ys) = logRecords xs ++ logRecords ys := by
  induction xs with
  | nil => rfl
  | cons c cs ih => cases c <;> simp [logRecords, ih]

theorem runSeq_length {J L : Type} (logger : Logger L) (env : JNIEnv J)
    (calls : List (EntryPoint × jclass)) (w : World J L) :
    (runSeq logger env calls w).1.length = calls.length := by
  induction calls generalizing w with
  | nil => rfl
  | cons c cs ih => simp [runSeq, ih]

theorem runSeq_append {J L : Type} (logger : Logger L) (env : JNIEnv J)
    (pre rest : List (EntryPoint × jclass)) (w : World J L) :
    runSeq logger env (pre ++ rest) w =
      ((runSeq logger env pre w).1 ++ (runSeq logger env rest (runSeq logger env pre w).2).1,
        (runSeq logger env rest (runSeq logger env pre w).2).2) := by
  induction pre generalizing w with
  | nil => simp [runSeq]
  | cons c cs ih => simp [runSeq, ih]

theorem runSeq_logger_irrelevant {J L₁ L₂ : Type} (logger₁ : Logger L₁) (logger₂ : Logger L₂)
    (env : JNIEnv J) (calls : List (EntryPoint × jclass)) (j : J) (l₁ : L₁) (l₂ : L₂)
    (t : List Call) :
    (runSeq logger₁ env calls ⟨j, l₁, t⟩).1 = (runSeq logger₂ env calls ⟨j, l₂, t⟩).1 ∧
      (runSeq logger₁ env calls ⟨j, l₁, t⟩).2.trace
        = (runSeq logger₂ env calls ⟨j, l₂, t⟩).2.trace ∧
      (runSeq logger₁ env calls ⟨j, l₁, t⟩).2.jvm
        = (runSeq logger₂ env calls ⟨j, l₂, t⟩).2.jvm := by
  induction calls generalizing j l₁ l₂ t with
  | nil => exact ⟨rfl, rfl, rfl⟩
  | cons c cs ih =>
    simp only [runSeq, invoke_eq]
    obtain ⟨h₁, h₂, h₃⟩ := ih (env.NewStringUTF j (requestedString c.1)).2
      (logger₁.android_log_print l₁ ANDROID_LOG_INFO LOG_TAG (logMessage c.1)).2
      (logger₂.android_log_print l₂ ANDROID_LOG_INFO LOG_TAG (logMessage c.1)).2
      (t ++ [Call.android_log_print ANDROID_LOG_INFO LOG_TAG (logMessage c.1),
        Call.NewStringUTF (requestedString c.1)])
    exact ⟨by rw [h₁], h₂, h₃⟩

/-! ## Logging and the result -/

/-- C4: two runs of an entry point that differ only in the logging collaborator
(its implementation, its state, hence whatever it answers) return the same
result, make the same calls in the same order, and leave the runtime in the
same state; the same holds for the results of two runs of any sequence of
invocations. -/
theorem C4_logging_never_alters_result {J L₁ L₂ : Type} (logger₁ : Logger L₁)
    (logger₂ : Logger L₂) (env : JNIEnv J) (e : EntryPoint) (clazz : jclass) (j : J)
    (l₁ : L₁) (l₂ : L₂) (t : List Call) :
    (invoke logger₁ env e clazz ⟨j, l₁, t⟩).1 = (invoke logger₂ env e clazz ⟨j, l₂, t⟩).1 ∧
      (invoke logger₁ env e clazz ⟨j, l₁, t⟩).2.trace
        = (invoke logger₂ env e clazz ⟨j, l₂, t⟩).2.trace ∧
      (invoke logger₁ env e clazz ⟨j, l₁, t⟩).2.jvm
        = (invoke logger₂ env e clazz ⟨j, l₂, t⟩).2.jvm ∧
      ∀ calls : List (EntryPoint × jclass),
        (runSeq logger₁ env calls ⟨j, l₁, t⟩).1 = (runSeq logger₂ env calls ⟨j, l₂, t⟩).1 := by
  refine ⟨?_, ?_, ?_, fun calls => (runSeq_logger_irrelevant logger₁ logger₂ env calls j l₁ l₂ t).1⟩
  · rw [invoke_eq, invoke_eq]
  · rw [invoke_eq, invoke_eq]
  · rw [invoke_eq, invoke_eq]

/-- C8: an invocation of each entry point adds to the calls made exactly one
log record, of priority INFO, with tag "EcuBridge" and the entry point's own
message, followed by the `NewStringUTF` call that constructs the return value;
in particular the records added are never of priority ERROR.  No message holds
a `%`, so the text logged is the format string itself. -/
theorem C8_one_info_record_before_construction {J L : Type} (logger : Logger L)
    (env : JNIEnv J) (clazz : jclass) (w : World J L) :
    (Java_id_xms_ecucamera_bridge_NativeBridge_stringFromRust logger env clazz w).2.trace
        = w.trace ++ [Call.android_log_print ANDROID_LOG_INFO "EcuBridge"
            "C++ Bridge: Calling Rust stringFromRust function",
          Call.NewStringUTF "C++ Bridge: Rust function should override this"] ∧
      (Java_id_xms_ecucamera_bridge_NativeBridge_getEngineStatus logger env clazz w).2.trace
        = w.trace ++ [Call.android_log_print ANDROID_LOG_INFO "EcuBridge"
            "C++ Bridge: Calling Rust getEngineStatus function",
          Call.NewStringUTF "C++ Bridge: Rust function should override this"] ∧
      (Java_id_xms_ecucamera_bridge_NativeBridge_initializeEngine logger env clazz w).2.trace
        = w.trace ++ [Call.android_log_print ANDROID_LOG_INFO "EcuBridge"
            "C++ Bridge: Calling Rust initializeEngine function",
          Call.NewStringUTF "C++ Bridge: Rust function should override this"] ∧
      (Java_id_xms_ecucamera_bridge_NativeBridge_getCppBridgeInfo logger env clazz w).2.trace
        = w.trace ++ [Call.android_log_print ANDROID_LOG_INFO "EcuBridge"
            "C++ Bridge: Providing bridge information",
          Call.NewStringUTF "C++ Bridge: Active and ready for ECU communication"] ∧
      ∀ e : EntryPoint,
        logRecords (invoke logger env e clazz w).2.trace
          = logRecords w.trace ++ [(ANDROID_LOG_INFO, "EcuBridge", logMessage e)] ∧
        '%' ∉ (logMessage e).toList := by
  refine ⟨?_, ?_, ?_, ?_, fun e => ⟨?_, by cases e <;> decide⟩⟩
  · simp [Java_id_xms_ecucamera_bridge_NativeBridge_stringFromRust, LOGI,
      JNIEnv.callNewStringUTF, LOG_TAG]
  · simp [Java_id_xms_ecucamera_bridge_NativeBridge_getEngineStatus, LOGI,
      JNIEnv.callNewStringUTF, LOG_TAG]
  · simp [Java_id_xms_ecucamera_bridge_NativeBridge_initializeEngine, LOGI,
      JNIEnv.callNewStringUTF, LOG_TAG]
  · simp [Java_id_xms_ecucamera_bridge_NativeBridge_getCppBridgeInfo, LOGI,
      JNIEnv.callNewStringUTF, LOG_TAG]
  · rw [invoke_eq, logRecords_append]
    rfl

/-! ## The string constructor -/

/-- C9: in every runtime and world the three stubs ask `NewStringUTF` for the
same literal, "C++ Bridge: Rust function should override this", and return the
same value, whichever class each is called with; `getCppBridgeInfo` asks for a
different literal, "C++ Bridge: Active and ready for ECU communication". -/
theorem C9_stubs_indistinguishable {J L : Type} (logger : Logger L) (env : JNIEnv J)
    (c₁ c₂ c₃ c₄ : jclass) (w : World J L) :
    (Java_id_xms_ecucamera_bridge_NativeBridge_stringFromRust logger env c₁ w).1
        = (Java_id_xms_ecucamera_bridge_NativeBridge_getEngineStatus logger env c₂ w).1 ∧
      (Java_id_xms_ecucamera_bridge_NativeBridge_getEngineStatus logger env c₂ w).1
        = (Java_id_xms_ecucamera_bridge_NativeBridge_initializeEngine logger env c₃ w).1 ∧
      requestedStrings
          (Java_id_xms_ecucamera_bridge_NativeBridge_stringFromRust logger env c₁ w).2.trace
        = requestedStrings w.trace ++ ["C++ Bridge: Rust function should override this"] ∧
      requestedStrings
          (Java_id_xms_ecucamera_bridge_NativeBridge_getEngineStatus logger env c₂ w).2.trace
        = requestedStrings w.trace ++ ["C++ Bridge: Rust function should override this"] ∧
      requestedStrings
          (Java_id_xms_ecucamera_bridge_NativeBridge_initializeEngine logger env c₃ w).2.trace
        = requestedStrings w.trace ++ ["C++ Bridge: Rust function should override this"] ∧
      requestedStrings
          (Java_id_xms_ecucamera_bridge_NativeBridge_getCppBridgeInfo logger env c₄ w).2.trace
        = requestedStrings w.trace ++ ["C++ Bridge: Active and ready for ECU communication"] ∧
      "C++ Bridge: Rust function should override this"
        ≠ "C++ Bridge: Active and ready for ECU communication" := by
  refine ⟨rfl, rfl, ?_, ?_, ?_, ?_, by decide⟩ <;>
    simp [Java_id_xms_ecucamera_bridge_NativeBridge_stringFromRust,
      Java_id_xms_ecucamera_bridge_NativeBridge_getEngineStatus,
      Java_id_xms_ecucamera_bridge_NativeBridge_initializeEngine,
      Java_id_xms_ecucamera_bridge_NativeBridge_getCppBridgeInfo, LOGI,
      JNIEnv.callNewStringUTF, requestedStrings_append, requestedStrings]

/-- C10: an invocation of any entry point adds exactly one `NewStringUTF` call
to the calls made, its argument is the entry point's literal, the value returned
is that call's answer, and nothing of the outcome depends on `clazz`. -/
theorem C10_single_constructor_call {J L : Type} (logger : Logger L) (env : JNIEnv J)
    (e : EntryPoint) (clazz : jclass) (w : World J L) :
    requestedStrings (invoke logger env e clazz w).2.trace
        = requestedStrings w.trace ++ [requestedString e] ∧
      (invoke logger env e clazz w).1 = (env.NewStringUTF w.jvm (requestedString e)).1 ∧
      ∀ clazz' : jclass, invoke logger env e clazz' w = invoke logger env e clazz w := by
  refine ⟨?_, ?_, fun clazz' => ?_⟩
  · rw [invoke_eq, requestedStrings_append]
    rfl
  · rw [invoke_eq]
  · rw [invoke_eq, invoke_eq]

/-! ## Sequences of calls -/

/-- C6: in any sequence of invocations, the result of a call equals the result
of invoking that entry point alone, in any other world, with any other logger
and runtime, provided the string constructor gives there the answer it gave in
the sequence; what was called before, and how often, plays no other part. -/
theorem C6_result_independent_of_history {J J' L L' : Type} (logger : Logger L)
    (logger' : Logger L') (env : JNIEnv J) (env' : JNIEnv J')
    (pre post : List (EntryPoint × jclass)) (c : EntryPoint × jclass) (clazz' : jclass)
    (w : World J L) (w' : World J' L')
    (hsame : (env'.NewStringUTF w'.jvm (requestedString c.1)).1
      = (env.NewStringUTF (runSeq logger env pre w).2.jvm (requestedString c.1)).1) :
    (runSeq logger env (pre ++ c :: post) w).1[pre.length]?
      = some (invoke logger' env' c.1 clazz' w').1 := by
  rw [runSeq_append]
  have hlen := runSeq_length logger env pre w
  rw [List.getElem?_append_right (by omega)]
  simp [hlen, runSeq, invoke_eq, hsame]

/-- C6 at a runtime that can build two more strings: the third call of a
sequence finds it exhausted and returns what a lone call on an exhausted runtime
returns. -/
theorem C6_result_independent_of_history_witness :
    (budgetEnv.NewStringUTF (⟨0, [], []⟩ : World Nat (List String)).jvm
        (requestedString (EntryPoint.getCppBridgeInfo, (7 : jclass)).1)).1
      = (budgetEnv.NewStringUTF
          (runSeq nullLogger budgetEnv
            [(EntryPoint.stringFromRust, 1), (EntryPoint.getEngineStatus, 2)]
            ⟨2, (), []⟩).2.jvm
          (requestedString (EntryPoint.getCppBridgeInfo, (7 : jclass)).1)).1 ∧
    (runSeq nullLogger budgetEnv
        ([(EntryPoint.stringFromRust, 1), (EntryPoint.getEngineStatus, 2)]
          ++ (EntryPoint.getCppBridgeInfo, 7) :: [(EntryPoint.initializeEngine, 3)])
        ⟨2, (), []⟩).1[[(EntryPoint.stringFromRust, (1 : jclass)),
          (EntryPoint.getEngineStatus, (2 : jclass))].length]?
      = some (invoke keepLogger budgetEnv (EntryPoint.getCppBridgeInfo, (7 : jclass)).1 9
          ⟨0, [], []⟩).1 :=
  ⟨rfl, C6_result_independent_of_history nullLogger keepLogger budgetEnv budgetEnv
    [(EntryPoint.stringFromRust, 1), (EntryPoint.getEngineStatus, 2)]
    [(EntryPoint.initializeEngine, 3)] (EntryPoint.getCppBridgeInfo, 7) 9
    ⟨2, (), []⟩ ⟨0, [], []⟩ rfl⟩

/-! ## What the caller receives -/

theorem budgetEnv_conforming : budgetEnv.Conforming := by
  intro n s
  cases n with
  | zero => exact Or.inl rfl
  | succ k => exact Or.inr rfl

/-- C1, as stated, fails: on a runtime whose string construction succeeds,
`stringFromRust` returns the placeholder string itself. -/
theorem C1_counterexample :
    (Java_id_xms_ecucamera_bridge_NativeBridge_stringFromRust nullLogger okEnv 0 w0).1
      = some "C++ Bridge: Rust function should override this" := rfl

/-- C1, amended: on a runtime whose `NewStringUTF` keeps the JNI contract, every
invocation of every entry point returns a value of the declared shape `jstring`:
`NULL`, or a string which for the three stubs is the placeholder
"C++ Bridge: Rust function should override this" and for `getCppBridgeInfo` is
"C++ Bridge: Active and ready for ECU communication", never the placeholder. -/
theorem C1_result_is_null_or_the_literal {J L : Type} (logger : Logger L) (env : JNIEnv J)
    (hconf : env.Conforming) (clazz : jclass) (w : World J L) :
    ((Java_id_xms_ecucamera_bridge_NativeBridge_stringFromRust logger env clazz w).1 = none ∨
        (Java_id_xms_ecucamera_bridge_NativeBridge_stringFromRust logger env clazz w).1
          = some "C++ Bridge: Rust function should override this") ∧
      ((Java_id_xms_ecucamera_bridge_NativeBridge_getEngineStatus logger env clazz w).1 = none ∨
        (Java_id_xms_ecucamera_bridge_NativeBridge_getEngineStatus logger env clazz w).1
          = some "C++ Bridge: Rust function should override this") ∧
      ((Java_id_xms_ecucamera_bridge_NativeBridge_initializeEngine logger env clazz w).1 = none ∨
        (Java_id_xms_ecucamera_bridge_NativeBridge_initializeEngine logger env clazz w).1
          = some "C++ Bridge: Rust function should override this") ∧
      ((Java_id_xms_ecucamera_bridge_NativeBridge_getCppBridgeInfo logger env clazz w).1 = none ∨
        (Java_id_xms_ecucamera_bridge_NativeBridge_getCppBridgeInfo logger env clazz w).1
          = some "C++ Bridge: Active and ready for ECU communication") ∧
      (Java_id_xms_ecucamera_bridge_NativeBridge_getCppBridgeInfo logger env clazz w).1
        ≠ some "C++ Bridge: Rust function should override this" := by
  refine ⟨hconf _ _, hconf _ _, hconf _ _, hconf _ _, ?_⟩
  rcases hconf w.jvm "C++ Bridge: Active and ready for ECU communication" with h | h
  · intro h'
    have : (env.NewStringUTF w.jvm "C++ Bridge: Active and ready for ECU communication").1
        = some "C++ Bridge: Rust function should override this" := h'
    rw [h] at this
    exact Option.noConfusion this
  · intro h'
    have : (env.NewStringUTF w.jvm "C++ Bridge: Active and ready for ECU communication").1
        = some "C++ Bridge: Rust function should override this" := h'
    rw [h] at this
    exact absurd (Option.some.inj this) (by decide)

/-- C1, amended, on a runtime that can build one more string. -/
theorem C1_result_is_null_or_the_literal_witness :
    budgetEnv.Conforming ∧
      (Java_id_xms_ecucamera_bridge_NativeBridge_getCppBridgeInfo keepLogger budgetEnv 4
          ⟨1, [], []⟩).1
        ≠ some "C++ Bridge: Rust function should override this" :=
  ⟨budgetEnv_conforming,
    (C1_result_is_null_or_the_literal keepLogger budgetEnv budgetEnv_conforming 4
      ⟨1, [], []⟩).2.2.2.2⟩

/-- C3, as stated, fails: four calls of the stubs, in mixed order, on a runtime
whose string construction succeeds each return the placeholder string as an
ordinary value; none yields a failure. -/
theorem C3_counterexample :
    (runSeq nullLogger okEnv
        [(EntryPoint.initializeEngine, 0), (EntryPoint.stringFromRust, 0),
          (EntryPoint.initializeEngine, 0), (EntryPoint.getEngineStatus, 0)] w0).1
      = [some "C++ Bridge: Rust function should override this",
          some "C++ Bridge: Rust function should override this",
          some "C++ Bridge: Rust function should override this",
          some "C++ Bridge: Rust function should override this"] := rfl

/-- C3, amended: in every sequence of invocations of the three stubs, in any
order and of any length, on a runtime whose `NewStringUTF` keeps the JNI
contract, there is one result per call and each result is `NULL` or the
placeholder "C++ Bridge: Rust function should override this". -/
theorem C3_stubs_yield_null_or_placeholder {J L : Type} (logger : Logger L) (env : JNIEnv J)
    (hconf : env.Conforming) (calls : List (EntryPoint × jclass))
    (hstub : ∀ c ∈ calls, c.1.isStub = true) (w : World J L) :
    (runSeq logger env calls w).1.length = calls.length ∧
      ∀ r ∈ (runSeq logger env calls w).1,
        r = none ∨ r = some "C++ Bridge: Rust function should override this" := by
  refine ⟨runSeq_length logger env calls w, ?_⟩
  induction calls generalizing w with
  | nil => simp [runSeq]
  | cons c cs ih =>
    intro r hr
    simp only [runSeq, List.mem_cons] at hr
    rcases hr with hr | hr
    · have hc : c.1.isStub = true := hstub c (List.mem_cons_self _ _)
      have hreq : requestedString c.1 = "C++ Bridge: Rust function should override this" := by
        cases hce : c.1 <;> simp [hce, EntryPoint.isStub] at hc <;> rfl
      rw [hr, invoke_eq, ← hreq]
      exact hconf _ _
    · exact ih (fun c' hc' => hstub c' (List.mem_cons_of_mem _ hc')) _ r hr

/-- C3, amended, on a runtime that can build two more strings: three stub calls
give the placeholder twice and then `NULL`. -/
theorem C3_stubs_yield_null_or_placeholder_witness :
    budgetEnv.Conforming ∧
      (∀ c ∈ [(EntryPoint.getEngineStatus, (1 : jclass)), (EntryPoint.initializeEngine, 2),
        (EntryPoint.stringFromRust, 3)], c.1.isStub = true) ∧
      ∀ r ∈ (runSeq keepLogger budgetEnv
          [(EntryPoint.getEngineStatus, 1), (EntryPoint.initializeEngine, 2),
            (EntryPoint.stringFromRust, 3)] ⟨2, [], []⟩).1,
        r = none ∨ r = some "C++ Bridge: Rust function should override this" :=
  ⟨budgetEnv_conforming, by decide,
    (C3_stubs_yield_null_or_placeholder keepLogger budgetEnv budgetEnv_conforming
      [(EntryPoint.getEngineStatus, 1), (EntryPoint.initializeEngine, 2),
        (EntryPoint.stringFromRust, 3)] (by decide) ⟨2, [], []⟩).2⟩

theorem heapEnv_raisesOnNull : heapEnv.RaisesOnNull Prod.snd := by
  intro j s h
  obtain ⟨n, p⟩ := j
  cases n with
  | zero => exact ⟨_, rfl⟩
  | succ k => exact absurd h (by simp [heapEnv])

/-- C5: on a runtime whose `NewStringUTF` answers `NULL` only with an exception
pending, whenever the construction an entry point asks for fails, the managed
caller of that entry point gets, on return from this very call, the exception
the runtime raised at the failed construction, with its message; the bridge has
not cleared it, and the caller does not receive a bare `NULL` value. -/
theorem C5_failure_is_thrown_to_caller {J L : Type} (logger : Logger L) (env : JNIEnv J)
    (pending : J → Option Throwable) (hjni : env.RaisesOnNull pending) (e : EntryPoint)
    (clazz : jclass) (w : World J L)
    (hnull : (env.NewStringUTF w.jvm (requestedString e)).1 = none) :
    (∃ ex : Throwable,
        pending (env.NewStringUTF w.jvm (requestedString e)).2 = some ex ∧
          callFromManaged logger env pending e clazz w = ManagedOutcome.thrown ex) ∧
      callFromManaged logger env pending e clazz w ≠ ManagedOutcome.value none := by
  obtain ⟨ex, hex⟩ := hjni w.jvm (requestedString e) hnull
  have hcall : callFromManaged logger env pending e clazz w = ManagedOutcome.thrown ex := by
    simp [callFromManaged, returnToManaged, invoke_eq, hex]
  refine ⟨⟨ex, hex, hcall⟩, ?_⟩
  rw [hcall]
  exact fun h => ManagedOutcome.noConfusion h

/-- C5 on a runtime with room for one more string: the second of two calls
fails and its caller gets the `OutOfMemoryError`. -/
theorem C5_failure_is_thrown_to_caller_witness :
    heapEnv.RaisesOnNull Prod.snd ∧
      (heapEnv.NewStringUTF
          (invoke keepLogger heapEnv EntryPoint.stringFromRust 1 ⟨(1, none), [], []⟩).2.jvm
          (requestedString EntryPoint.getCppBridgeInfo)).1 = none ∧
      (∃ ex : Throwable,
        Prod.snd (heapEnv.NewStringUTF
          (invoke keepLogger heapEnv EntryPoint.stringFromRust 1 ⟨(1, none), [], []⟩).2.jvm
          (requestedString EntryPoint.getCppBridgeInfo)).2 = some ex ∧
        callFromManaged keepLogger heapEnv Prod.snd EntryPoint.getCppBridgeInfo 2
            (invoke keepLogger heapEnv EntryPoint.stringFromRust 1 ⟨(1, none), [], []⟩).2
          = ManagedOutcome.thrown ex) ∧
      callFromManaged keepLogger heapEnv Prod.snd EntryPoint.getCppBridgeInfo 2
          (invoke keepLogger heapEnv EntryPoint.stringFromRust 1 ⟨(1, none), [], []⟩).2
        ≠ ManagedOutcome.value none :=
  ⟨heapEnv_raisesOnNull, rfl,
    C5_failure_is_thrown_to_caller keepLogger heapEnv Prod.snd heapEnv_raisesOnNull
      EntryPoint.getCppBridgeInfo 2
      (invoke keepLogger heapEnv EntryPoint.stringFromRust 1 ⟨(1, none), [], []⟩).2 rfl⟩

end EcuBridge
